import Mathlib

/-!
Shallow embedding of the Kubernetes MCP server's tool dispatch and
response-normalization layer (`src/MCP/kubernetes-server/src/index.ts`).

The TypeScript code manipulates untyped (`any`) JavaScript values coming from
the Kubernetes client library.  We model those values with the inductive type
`Json` below, which includes an `undefined` constructor so that JavaScript's
`undefined` (the result of reading an absent property, and the value produced
by optional chaining `a?.b` on `null`/`undefined`) is representable.

Each tool handler of the `KubernetesServer` class is translated to a pure Lean
function from the decoded argument bag and an upstream-client interface to the
MCP response envelope, additionally returning the list of upstream calls it
performed (the trace), so that claims about which upstream call is made, and
with which arguments, are directly statable.
-/

/-- JavaScript/JSON values as manipulated by the untyped handler code.
`undefined` models JavaScript `undefined`; `num` models numbers (only integral
values occur in the claims considered here); object fields are kept in
insertion order, as JavaScript objects preserve it. -/
inductive Json where
  | undefined : Json
  | null : Json
  | bool : Bool → Json
  | num : Int → Json
  | str : String → Json
  | arr : List Json → Json
  | obj : List (String × Json) → Json
deriving Repr

/-- Models JavaScript property access `a?.b` (and plain `a.b` on non-nullish
values): reading a key from an object yields its value, reading an absent key
or reading from any non-object value yields `undefined`.  A *plain* access on
a possibly-nullish value, which can throw, is modelled by `Json.getEx`
(and by `jsItems`/`podItems` for the response shapes). -/
def Json.get (j : Json) (k : String) : Json :=
  match j with
  | .obj fields =>
    match fields.find? (fun p => p.1 = k) with
    | some p => p.2
    | none => .undefined
  | _ => .undefined

/-- JavaScript truthiness: `undefined`, `null`, `false`, `0` and `""` are
falsy; everything else (including empty arrays and objects) is truthy. -/
def Json.truthy : Json → Bool
  | .undefined => false
  | .null => false
  | .bool b => b
  | .num n => n != 0
  | .str s => s ≠ ""
  | .arr _ => true
  | .obj _ => true

/-- Models the JavaScript strict comparison `j === "s"` of an untyped value
against a string literal: true exactly when `j` is that string. -/
def Json.eqStr (j : Json) (s : String) : Bool :=
  match j with
  | .str t => t = s
  | _ => false

/-- The keys of a JavaScript object, in insertion order: models `Object.keys`
(and the keys produced by `Object.entries`).  The source only applies these to
values that are objects or absent; non-object values are modelled as having no
keys. -/
def Json.objKeys : Json → List String
  | .obj fields => fields.map Prod.fst
  | _ => []

/-- Is the value a JavaScript object (non-array)? -/
def Json.isObj : Json → Bool
  | .obj _ => true
  | _ => false

/-- String conversion performed by a JavaScript template literal
interpolation: strings are spliced verbatim, `undefined`/`null` print their
names, and the remaining cases print their JSON-like rendering. -/
def Json.interp : Json → String
  | .undefined => "undefined"
  | .null => "null"
  | .bool true => "true"
  | .bool false => "false"
  | .num n => toString n
  | .str s => s
  | .arr _ => "object Array"
  | .obj _ => "object Object"

/-- One escaped character of a JSON string literal. -/
def escapeChar (c : Char) : String :=
  if c = '"' then "\\\"" else if c = '\\' then "\\\\" else String.singleton c

/-- Escaping of a JSON string body. -/
def escapeStr (s : String) : String :=
  String.join (s.data.map escapeChar)

/-- Is a field value dropped by `JSON.stringify`?  JavaScript omits object
fields whose value is `undefined`. -/
def Json.isUndefined : Json → Bool
  | .undefined => true
  | _ => false

/-- Models `JSON.stringify`: object fields with `undefined` values are
omitted, `undefined` array elements render as `null`.  (The source calls
`JSON.stringify(x, null, 2)`; the indentation whitespace is not modelled, as
no claim depends on it.) -/
def Json.stringify : Json → String
  | .undefined => "null"
  | .null => "null"
  | .bool true => "true"
  | .bool false => "false"
  | .num n => toString n
  | .str s => "\"" ++ escapeStr s ++ "\""
  | .arr elems => "[" ++
      String.intercalate "," (elems.attach.map (fun x => Json.stringify x.1)) ++ "]"
  | .obj fields => "\x7b" ++
      String.intercalate ","
        ((fields.attach.filter (fun p => !p.1.2.isUndefined)).map
          (fun p => "\"" ++ escapeStr p.1.1 ++ "\":" ++ Json.stringify p.1.2)) ++
      "\x7d"
termination_by j => sizeOf j
decreasing_by
  all_goals
    first
    | (have hx := List.sizeOf_lt_of_mem x.2
       simp only [Json.arr.sizeOf_spec]
       omega)
    | (have h1 := List.sizeOf_lt_of_mem p.2
       have h2 : sizeOf p.1.2 < sizeOf p.1 := by
         obtain ⟨⟨a, b⟩, hp⟩ := p
         simp [Prod.mk.sizeOf_spec]
         try omega
       simp only [Json.obj.sizeOf_spec]
       omega)

/-- Models JavaScript `s.startsWith(pat)`: `pat` is a prefix of the character
sequence of `s`. -/
def jsStartsWith (s pat : String) : Bool :=
  pat.data.isPrefixOf s.data

/-- Removes the first occurrence of `pat` from a character list (the body of
JavaScript `String.prototype.replace` with a string pattern and an empty
replacement). -/
def removeFirst (pat : List Char) : List Char → List Char
  | [] => []
  | c :: cs =>
    if pat.isPrefixOf (c :: cs) then (c :: cs).drop pat.length
    else c :: removeFirst pat cs

/-- Models JavaScript `s.replace(pat, "")` for a string pattern `pat`: only
the first occurrence is replaced. -/
def jsReplaceFirst (s pat : String) : String :=
  ⟨removeFirst pat.data s.data⟩

/-- The decoded argument bag of a tool invocation.  Every claim-relevant
argument is a string (or a number, for `tailLines`); an absent argument is
`none`.  The field `«namespace»` is quoted because `namespace` is a Lean
keyword. -/
structure ToolArgs where
  name : Option String := none
  «namespace» : Option String := none
  labelSelector : Option String := none
  container : Option String := none
  tailLines : Option Int := none
deriving Repr, DecidableEq

/-- One entry of the `content` array of an MCP tool response. -/
structure ContentItem where
  type : String
  text : String
deriving Repr, DecidableEq

/-- The MCP response envelope returned by every handler:
`{content: [...], isError}`.  A success response omits `isError`, which the
protocol treats as `false`; we model the omission as `isError := false`. -/
structure ToolResult where
  content : List ContentItem
  isError : Bool := false
deriving Repr, DecidableEq

/-- A success envelope with a single text content entry. -/
def textResult (s : String) : ToolResult :=
  { content := [{ type := "text", text := s }], isError := false }

/-- A failure envelope with a single text content entry (`isError: true`). -/
def errorResult (s : String) : ToolResult :=
  { content := [{ type := "text", text := s }], isError := true }

/-- The kubeconfig-derived context the server holds:
`kc.getCurrentContext()` and `kc.getCluster(currentContext)` (the latter an
untyped object, possibly `undefined`). -/
structure KubeConfig where
  currentContext : String
  cluster : Json

/-- The upstream Kubernetes client, modelled as one function per
resource-operation pair (the spec's collaborator interface).  Each call either
returns the raw (untyped) response value or fails with the thrown exception's
message text. -/
structure Upstream where
  getAPIResources : Except String Json
  listNamespacedPod : String → Except String Json
  listNamespacedService : String → Option String → Except String Json
  listNamespacedDeployment : String → Option String → Except String Json
  readNamespacedPod : String → String → Except String Json
  readNamespacedService : String → String → Except String Json
  readNamespacedDeployment : String → String → Except String Json
  readNamespacedPodLog : String → String → Option String → Option Int → Except String String
  listNamespace : Except String Json
  listNode : Option String → Except String Json
  readNode : String → Except String Json
  listNamespacedConfigMap : String → Option String → Except String Json
  readNamespacedConfigMap : String → String → Except String Json

/-- A record of one upstream call, with the arguments the handler passed.
`listNamespacedPod` carries no label selector because the source invokes
`listNamespacedPod(namespace)` with no further arguments. -/
inductive UCall where
  | getAPIResources : UCall
  | listNamespacedPod : String → UCall
  | listNamespacedService : String → Option String → UCall
  | listNamespacedDeployment : String → Option String → UCall
  | readNamespacedPod : String → String → UCall
  | readNamespacedService : String → String → UCall
  | readNamespacedDeployment : String → String → UCall
  | readNamespacedPodLog : String → String → Option String → Option Int → UCall
  | listNamespace : UCall
  | listNode : Option String → UCall
  | readNode : String → UCall
  | listNamespacedConfigMap : String → Option String → UCall
  | readNamespacedConfigMap : String → String → UCall
deriving Repr, DecidableEq

/-- Models `args?.namespace || 'default'`: an absent or empty namespace
argument falls back to `"default"`. -/
def nsOrDefault (ns : Option String) : String :=
  match ns with
  | some s => if s = "" then "default" else s
  | none => "default"

/-- Is `args?.name` falsy (absent or the empty string)?  This is the guard
`if (!args?.name)` of the describe/log handlers. -/
def nameFalsy (args : ToolArgs) : Bool :=
  match args.name with
  | some s => s = ""
  | none => true

/-- The `if (!args?.name) return error` prologue shared verbatim by the
describe/log handlers: on a falsy name, the given failure envelope is returned
with no upstream call; otherwise the handler body runs with the name. -/
def requireName (args : ToolArgs) (msg : String)
    (body : String → ToolResult × List UCall) : ToolResult × List UCall :=
  match args.name with
  | none => (errorResult msg, [])
  | some n => if n = "" then (errorResult msg, []) else body n

/-- Models the expression `response.body.items.map(...)` used by the
list-services/deployments/nodes/configmaps handlers: the plain (non-optional)
property accesses throw a `TypeError` when `body` is nullish, and `.map`
throws when `items` is not an array; a throw is modelled as an `Except.error`
carrying the exception message (the message text of the modelled `TypeError`
is abstract, chosen here to describe the failure). -/
def jsItems (response : Json) : Except String (List Json) :=
  match response with
  | .undefined => .error "Cannot read properties of undefined reading body"
  | .null => .error "Cannot read properties of null reading body"
  | _ =>
    match response.get "body" with
    | .undefined => .error "Cannot read properties of undefined reading items"
    | .null => .error "Cannot read properties of null reading items"
    | body =>
      match body.get "items" with
      | .arr items => .ok items
      | _ => .error "items.map is not a function"

/-- Models a *plain* (non-optional-chained) JavaScript property access `j.k`:
on a `null`/`undefined` receiver it throws a `TypeError` (modelled as an
`Except.error` carrying an abstract rendering of the exception message);
on every other receiver it is the total lookup `Json.get`. -/
def Json.getEx (j : Json) (k : String) : Except String Json :=
  match j with
  | .undefined => .error ("Cannot read properties of undefined reading " ++ k)
  | .null => .error ("Cannot read properties of null reading " ++ k)
  | _ => .ok (j.get k)

/-- Models JavaScript `Array.prototype.map` with a callback that can throw:
items are visited left to right and the first thrown exception aborts the
whole map (propagating to the handler, whose catch turns it into a Failure
envelope). -/
def mapOrThrow (f : Json → Except String Json) : List Json → Except String (List Json)
  | [] => .ok []
  | x :: xs =>
    match f x with
    | .error e => .error e
    | .ok y =>
      match mapOrThrow f xs with
      | .error e => .error e
      | .ok ys => .ok (y :: ys)

/-- The six projected fields of `listPods`, as read (via the optional-chained
accesses) from a raw pod value on which the plain accesses have succeeded:
`{name, namespace, status, ip, node, creationTimestamp}`. -/
def podFields (pod : Json) : Json :=
  .obj [
    ("name", (pod.get "metadata").get "name"),
    ("namespace", (pod.get "metadata").get "namespace"),
    ("status", (pod.get "status").get "phase"),
    ("ip", (pod.get "status").get "podIP"),
    ("node", (pod.get "spec").get "nodeName"),
    ("creationTimestamp", (pod.get "metadata").get "creationTimestamp")]

/-- The per-pod projection of `listPods`.  The object literal's fields are
evaluated left to right, each beginning with a plain access on the item
(`pod.metadata`, `pod.status`, `pod.spec`), so a nullish item throws a
`TypeError` (first at `pod.metadata`); on any other item the projection is
`podFields`. -/
def projectPod (pod : Json) : Except String Json :=
  match pod.getEx "metadata" with
  | .error e => .error e
  | .ok _ =>
    match pod.getEx "status" with
    | .error e => .error e
    | .ok _ =>
      match pod.getEx "spec" with
      | .error e => .error e
      | .ok _ => .ok (podFields pod)

/-- The per-service projection of `listServices`; the plain accesses
`service.metadata` and `service.spec` throw on a nullish item. -/
def projectService (service : Json) : Except String Json :=
  match service.getEx "metadata" with
  | .error e => .error e
  | .ok _ =>
    match service.getEx "spec" with
    | .error e => .error e
    | .ok _ =>
      .ok (.obj [
        ("name", (service.get "metadata").get "name"),
        ("namespace", (service.get "metadata").get "namespace"),
        ("type", (service.get "spec").get "type"),
        ("clusterIP", (service.get "spec").get "clusterIP"),
        ("ports", (service.get "spec").get "ports"),
        ("selector", (service.get "spec").get "selector"),
        ("creationTimestamp", (service.get "metadata").get "creationTimestamp")])

/-- The per-deployment projection of `listDeployments`; the plain accesses
`deployment.metadata`, `deployment.spec` and `deployment.status` throw on a
nullish item. -/
def projectDeployment (deployment : Json) : Except String Json :=
  match deployment.getEx "metadata" with
  | .error e => .error e
  | .ok _ =>
    match deployment.getEx "spec" with
    | .error e => .error e
    | .ok _ =>
      match deployment.getEx "status" with
      | .error e => .error e
      | .ok _ =>
        .ok (.obj [
          ("name", (deployment.get "metadata").get "name"),
          ("namespace", (deployment.get "metadata").get "namespace"),
          ("replicas", .obj [
            ("desired", (deployment.get "spec").get "replicas"),
            ("available", (deployment.get "status").get "availableReplicas"),
            ("ready", (deployment.get "status").get "readyReplicas")]),
          ("selector", (deployment.get "spec").get "selector"),
          ("creationTimestamp", (deployment.get "metadata").get "creationTimestamp")])

/-- The per-namespace projection of `listNamespaces`; the plain accesses
`ns.metadata` and `ns.status` throw on a nullish item. -/
def projectNamespace (ns : Json) : Except String Json :=
  match ns.getEx "metadata" with
  | .error e => .error e
  | .ok _ =>
    match ns.getEx "status" with
    | .error e => .error e
    | .ok _ =>
      .ok (.obj [
        ("name", (ns.get "metadata").get "name"),
        ("status", (ns.get "status").get "phase"),
        ("creationTimestamp", (ns.get "metadata").get "creationTimestamp")])

/-- The four projected fields of `listConfigMaps`, as read from a raw
configmap value on which the plain accesses have succeeded; `dataKeys` is
`Object.keys(cm.data || {})` — the keys of the data map, never its values. -/
def cmFields (cm : Json) : Json :=
  .obj [
    ("name", (cm.get "metadata").get "name"),
    ("namespace", (cm.get "metadata").get "namespace"),
    ("dataKeys", .arr ((cm.get "data").objKeys.map Json.str)),
    ("creationTimestamp", (cm.get "metadata").get "creationTimestamp")]

/-- The per-configmap projection of `listConfigMaps`; the plain accesses
`cm.metadata` and `cm.data` throw on a nullish item, and otherwise the
projection is `cmFields`. -/
def projectConfigMap (cm : Json) : Except String Json :=
  match cm.getEx "metadata" with
  | .error e => .error e
  | .ok _ =>
    match cm.getEx "data" with
    | .error e => .error e
    | .ok _ => .ok (cmFields cm)

/-- The label-key prefix marking node roles. -/
def roleLabelPfx : String := "node-role.kubernetes.io/"

/-- The role list derived from a node's `metadata?.labels` value:
`Object.entries(labels || {}).filter(([key]) =>
key.startsWith("node-role.kubernetes.io/")).map(([key]) =>
key.replace("node-role.kubernetes.io/", ""))`. -/
def nodeRoles (labels : Json) : List String :=
  ((labels.objKeys).filter
    (fun key => jsStartsWith key roleLabelPfx)).map
    (fun key => jsReplaceFirst key roleLabelPfx)

/-- Models `node.status?.conditions?.find((c) => c.type === 'Ready')`: on a
nullish condition list the optional chain yields `undefined`; on an array the
first matching element (or `undefined`); on any other truthy value `.find`
throws a `TypeError`, modelled as an error. -/
def findReadyCondition (conditions : Json) : Except String Json :=
  match conditions with
  | .undefined => .ok .undefined
  | .null => .ok .undefined
  | .arr cs =>
    .ok (match cs.find? (fun c => (c.get "type").eqStr "Ready") with
         | some c => c
         | none => .undefined)
  | _ => .error "conditions.find is not a function"

/-- The per-node projection of `listNodes`, including the derived readiness
status and role list.  The projection throws on a nullish item (plain
accesses `node.metadata` and `node.status`) and through the `.find` call on a
malformed condition list. -/
def projectNode (node : Json) : Except String Json :=
  match node.getEx "metadata" with
  | .error e => .error e
  | .ok _ =>
    match node.getEx "status" with
    | .error e => .error e
    | .ok _ =>
      match findReadyCondition ((node.get "status").get "conditions") with
      | .error e => .error e
      | .ok readyCond =>
        .ok (.obj [
          ("name", (node.get "metadata").get "name"),
          ("status", .str (if (readyCond.get "status").eqStr "True" then "Ready" else "NotReady")),
          ("roles", .arr ((nodeRoles ((node.get "metadata").get "labels")).map Json.str)),
          ("version", ((node.get "status").get "nodeInfo").get "kubeletVersion"),
          ("osImage", ((node.get "status").get "nodeInfo").get "osImage"),
          ("kernelVersion", ((node.get "status").get "nodeInfo").get "kernelVersion"),
          ("creationTimestamp", (node.get "metadata").get "creationTimestamp")])

/-- The fixed connectivity-guidance message returned by `listPods` when the
upstream call (or the subsequent projection) throws, interpolating
`cluster?.server` from the kubeconfig. -/
def connectionErrorMessage (kc : KubeConfig) : String :=
  "Unable to connect to the Kubernetes cluster at " ++
  (kc.cluster.get "server").interp ++
  ".\n\nThis could be due to one of the following reasons:\n" ++
  "1. The cluster is not running or accessible from this environment\n" ++
  "2. The kubeconfig file is pointing to a cluster that\x27s not available\n" ++
  "3. The cluster requires a proxy or VPN connection\n" ++
  "4. There might be network issues preventing the connection\n\n" ++
  "Please check your Kubernetes configuration and network connectivity."

/-- Handler of `get_cluster_info`: combines the current context, the cluster
descriptor and the API-resource metadata into one serialized object; if the
metadata call fails the whole operation fails. -/
def getClusterInfo (kc : KubeConfig) (u : Upstream) : ToolResult × List UCall :=
  match u.getAPIResources with
  | .ok versionInfo =>
    (textResult (Json.stringify (.obj [
      ("currentContext", .str kc.currentContext),
      ("clusterInfo", kc.cluster),
      ("apiResources", versionInfo.get "resources"),
      ("groupVersion", versionInfo.get "groupVersion")])),
     [.getAPIResources])
  | .error e =>
    (errorResult ("Error getting cluster info: " ++ e), [.getAPIResources])

/-- Models the item extraction of `listPods`, `response.body?.items || []`,
together with the `.map` call that follows: the handler first runs
`Object.keys(response)` and then the plain access `response.body`, both of
which throw on a nullish response; a falsy `body?.items` yields the empty
list; a truthy non-array `items` makes `.map` throw. -/
def podItems (response : Json) : Except String (List Json) :=
  match response with
  | .undefined => .error "Cannot read properties of undefined reading body"
  | .null => .error "Cannot read properties of null reading body"
  | _ =>
    match (response.get "body").get "items" with
    | .arr items => .ok items
    | j => if j.truthy then .error "items.map is not a function" else .ok []

/-- Handler of `list_pods`.  The namespace defaults to `"default"`; the
upstream call is `listNamespacedPod(namespace)` — the `labelSelector`
argument, although declared in the tool's input schema, is never passed.
Any failure inside the inner try (upstream call, response shape, or a throw
while projecting an item) is replaced by the fixed connectivity message. -/
def listPods (kc : KubeConfig) (u : Upstream) (args : ToolArgs) :
    ToolResult × List UCall :=
  let ns := nsOrDefault args.«namespace»
  match u.listNamespacedPod ns with
  | .ok response =>
    (match podItems response with
     | .ok items =>
       match mapOrThrow projectPod items with
       | .ok pods => textResult (Json.stringify (.arr pods))
       | .error _ => errorResult (connectionErrorMessage kc)
     | .error _ => errorResult (connectionErrorMessage kc),
     [.listNamespacedPod ns])
  | .error _ =>
    (errorResult (connectionErrorMessage kc), [.listNamespacedPod ns])

/-- Handler of `list_services`: namespace defaulting, `labelSelector` passed
through to the upstream call, `response.body.items` read with plain property
accesses. -/
def listServices (u : Upstream) (args : ToolArgs) : ToolResult × List UCall :=
  let ns := nsOrDefault args.«namespace»
  let ls := args.labelSelector
  match u.listNamespacedService ns ls with
  | .ok response =>
    (match jsItems response with
     | .ok items =>
       match mapOrThrow projectService items with
       | .ok services => textResult (Json.stringify (.arr services))
       | .error e => errorResult ("Error listing services: " ++ e)
     | .error e => errorResult ("Error listing services: " ++ e),
     [.listNamespacedService ns ls])
  | .error e =>
    (errorResult ("Error listing services: " ++ e), [.listNamespacedService ns ls])

/-- Handler of `list_deployments`, analogous to `listServices`. -/
def listDeployments (u : Upstream) (args : ToolArgs) : ToolResult × List UCall :=
  let ns := nsOrDefault args.«namespace»
  let ls := args.labelSelector
  match u.listNamespacedDeployment ns ls with
  | .ok response =>
    (match jsItems response with
     | .ok items =>
       match mapOrThrow projectDeployment items with
       | .ok deployments => textResult (Json.stringify (.arr deployments))
       | .error e => errorResult ("Error listing deployments: " ++ e)
     | .error e => errorResult ("Error listing deployments: " ++ e),
     [.listNamespacedDeployment ns ls])
  | .error e =>
    (errorResult ("Error listing deployments: " ++ e), [.listNamespacedDeployment ns ls])

/-- Handler of `describe_pod`: requires a name, defaults the namespace, and
serializes the raw response body with no projection. -/
def describePod (u : Upstream) (args : ToolArgs) : ToolResult × List UCall :=
  requireName args "Error: Pod name is required" (fun n =>
    let ns := nsOrDefault args.«namespace»
    match u.readNamespacedPod n ns with
    | .ok response =>
      (textResult (Json.stringify (response.get "body")), [.readNamespacedPod n ns])
    | .error e =>
      (errorResult ("Error describing pod: " ++ e), [.readNamespacedPod n ns]))

/-- Handler of `describe_service`. -/
def describeService (u : Upstream) (args : ToolArgs) : ToolResult × List UCall :=
  requireName args "Error: Service name is required" (fun n =>
    let ns := nsOrDefault args.«namespace»
    match u.readNamespacedService n ns with
    | .ok response =>
      (textResult (Json.stringify (response.get "body")), [.readNamespacedService n ns])
    | .error e =>
      (errorResult ("Error describing service: " ++ e), [.readNamespacedService n ns]))

/-- Handler of `describe_deployment`. -/
def describeDeployment (u : Upstream) (args : ToolArgs) : ToolResult × List UCall :=
  requireName args "Error: Deployment name is required" (fun n =>
    let ns := nsOrDefault args.«namespace»
    match u.readNamespacedDeployment n ns with
    | .ok response =>
      (textResult (Json.stringify (response.get "body")), [.readNamespacedDeployment n ns])
    | .error e =>
      (errorResult ("Error describing deployment: " ++ e), [.readNamespacedDeployment n ns]))

/-- Handler of `get_pod_logs`: requires a name, defaults the namespace, and on
success returns the upstream string as the content text, verbatim. -/
def getPodLogs (u : Upstream) (args : ToolArgs) : ToolResult × List UCall :=
  requireName args "Error: Pod name is required" (fun n =>
    let ns := nsOrDefault args.«namespace»
    let container := args.container
    let tailLines := args.tailLines
    match u.readNamespacedPodLog n ns container tailLines with
    | .ok response =>
      (textResult response, [.readNamespacedPodLog n ns container tailLines])
    | .error e =>
      (errorResult ("Error getting pod logs: " ++ e),
       [.readNamespacedPodLog n ns container tailLines]))

/-- Handler of `list_namespaces`: probes the response for `body.items`, then a
top-level `items`, and otherwise returns the raw serialized response as a
success; a falsy response is an error, and a truthy non-array `items` makes
`.map` throw, which the surrounding catch converts to a failure envelope. -/
def listNamespaces (u : Upstream) : ToolResult × List UCall :=
  match u.listNamespace with
  | .error e =>
    (errorResult ("Error listing namespaces: " ++ e), [.listNamespace])
  | .ok response =>
    (if !response.truthy then
      errorResult "Error: No response from Kubernetes API"
     else
      let items :=
        if (response.get "body").truthy && ((response.get "body").get "items").truthy then
          some ((response.get "body").get "items")
        else if (response.get "items").truthy then
          some (response.get "items")
        else
          none
      match items with
      | none =>
        textResult ("Raw response: " ++ response.stringify)
      | some (.arr xs) =>
        (match mapOrThrow projectNamespace xs with
         | .ok namespaces => textResult (Json.stringify (.arr namespaces))
         | .error e => errorResult ("Error listing namespaces: " ++ e))
      | some _ =>
        errorResult ("Error listing namespaces: " ++ "items.map is not a function"),
     [.listNamespace])

/-- Handler of `list_nodes`: passes the label selector upstream, reads
`response.body.items`, and projects each node (the projection itself can
throw, on a nullish item or a malformed condition list; the catch converts
that to a failure). -/
def listNodes (u : Upstream) (args : ToolArgs) : ToolResult × List UCall :=
  let ls := args.labelSelector
  match u.listNode ls with
  | .ok response =>
    (match jsItems response with
     | .ok items =>
       match mapOrThrow projectNode items with
       | .ok nodes => textResult (Json.stringify (.arr nodes))
       | .error e => errorResult ("Error listing nodes: " ++ e)
     | .error e => errorResult ("Error listing nodes: " ++ e),
     [.listNode ls])
  | .error e =>
    (errorResult ("Error listing nodes: " ++ e), [.listNode ls])

/-- Handler of `describe_node`: requires a name (there is no namespace
argument) and serializes the raw response body. -/
def describeNode (u : Upstream) (args : ToolArgs) : ToolResult × List UCall :=
  requireName args "Error: Node name is required" (fun n =>
    match u.readNode n with
    | .ok response =>
      (textResult (Json.stringify (response.get "body")), [.readNode n])
    | .error e =>
      (errorResult ("Error describing node: " ++ e), [.readNode n]))

/-- Handler of `list_configmaps`: namespace defaulting, label selector passed
upstream, and the value-free per-configmap projection. -/
def listConfigMaps (u : Upstream) (args : ToolArgs) : ToolResult × List UCall :=
  let ns := nsOrDefault args.«namespace»
  let ls := args.labelSelector
  match u.listNamespacedConfigMap ns ls with
  | .ok response =>
    (match jsItems response with
     | .ok items =>
       match mapOrThrow projectConfigMap items with
       | .ok configMaps => textResult (Json.stringify (.arr configMaps))
       | .error e => errorResult ("Error listing configmaps: " ++ e)
     | .error e => errorResult ("Error listing configmaps: " ++ e),
     [.listNamespacedConfigMap ns ls])
  | .error e =>
    (errorResult ("Error listing configmaps: " ++ e), [.listNamespacedConfigMap ns ls])

/-- Handler of `describe_configmap`. -/
def describeConfigMap (u : Upstream) (args : ToolArgs) : ToolResult × List UCall :=
  requireName args "Error: ConfigMap name is required" (fun n =>
    let ns := nsOrDefault args.«namespace»
    match u.readNamespacedConfigMap n ns with
    | .ok response =>
      (textResult (Json.stringify (response.get "body")), [.readNamespacedConfigMap n ns])
    | .error e =>
      (errorResult ("Error describing configmap: " ++ e), [.readNamespacedConfigMap n ns]))

/-- The names of the 13 operations of the tool catalog, in declaration
order. -/
def toolNames : List String :=
  ["get_cluster_info", "list_pods", "list_services", "list_deployments",
   "describe_pod", "describe_service", "describe_deployment", "get_pod_logs",
   "list_namespaces", "list_nodes", "describe_node", "list_configmaps",
   "describe_configmap"]

/-- The `CallToolRequestSchema` handler: dispatches on the tool name (the
`switch` of `setupToolHandlers`); an unknown name throws an `McpError` with
code `-32601` (MethodNotFound), which the surrounding catch converts into a
failure envelope whose text is `Error: ` followed by the error message.  The
handler is a total function: every invocation returns an envelope, no
exception escapes the boundary. -/
def handleCallTool (kc : KubeConfig) (u : Upstream) (toolName : String)
    (args : ToolArgs) : ToolResult × List UCall :=
  if toolName = "get_cluster_info" then getClusterInfo kc u
  else if toolName = "list_pods" then listPods kc u args
  else if toolName = "list_services" then listServices u args
  else if toolName = "list_deployments" then listDeployments u args
  else if toolName = "describe_pod" then describePod u args
  else if toolName = "describe_service" then describeService u args
  else if toolName = "describe_deployment" then describeDeployment u args
  else if toolName = "get_pod_logs" then getPodLogs u args
  else if toolName = "list_namespaces" then listNamespaces u
  else if toolName = "list_nodes" then listNodes u args
  else if toolName = "describe_node" then describeNode u args
  else if toolName = "list_configmaps" then listConfigMaps u args
  else if toolName = "describe_configmap" then describeConfigMap u args
  else
    (errorResult ("Error: " ++ "MCP error -32601: Unknown tool: " ++ toolName), [])

/-- A whole server run: the server holds no mutable state across invocations
(the kubeconfig and client handles are fixed at construction), so a sequence
of invocations is the pointwise image of `handleCallTool`. -/
def runServer (kc : KubeConfig) (u : Upstream) (reqs : List (String × ToolArgs)) :
    List ToolResult :=
  reqs.map (fun r => (handleCallTool kc u r.1 r.2).1)

/-- An upstream client all of whose calls fail with exception text `e`. -/
def failUpstream (e : String) : Upstream where
  getAPIResources := .error e
  listNamespacedPod := fun _ => .error e
  listNamespacedService := fun _ _ => .error e
  listNamespacedDeployment := fun _ _ => .error e
  readNamespacedPod := fun _ _ => .error e
  readNamespacedService := fun _ _ => .error e
  readNamespacedDeployment := fun _ _ => .error e
  readNamespacedPodLog := fun _ _ _ _ => .error e
  listNamespace := .error e
  listNode := fun _ => .error e
  readNode := fun _ => .error e
  listNamespacedConfigMap := fun _ _ => .error e
  readNamespacedConfigMap := fun _ _ => .error e

/-- A well-formed failure envelope: whenever `isError` is set, the content is
a single text entry whose text is non-empty. -/
def envelopeOk (r : ToolResult) : Prop :=
  r.isError = true →
    r.content.length = 1 ∧ ∀ c ∈ r.content, c.type = "text" ∧ 0 < c.text.length

/-- `sub` occurs inside `msg` as a contiguous substring. -/
def includesText (msg sub : String) : Prop :=
  ∃ pre post, msg = pre ++ sub ++ post

/-- A concrete kubeconfig used by witnesses: context `minikube`, cluster with
a server URL. -/
def kcEx : KubeConfig :=
  { currentContext := "minikube",
    cluster := .obj [("server", .str "https://127.0.0.1:6443")] }

/-- A concrete raw pod object used by witnesses. -/
def podEx : Json :=
  .obj [
    ("metadata", .obj [
      ("name", .str "web-1"), ("namespace", .str "default"),
      ("creationTimestamp", .str "2024-01-01T00:00:00Z")]),
    ("status", .obj [("phase", .str "Running"), ("podIP", .str "10.0.0.7")]),
    ("spec", .obj [("nodeName", .str "node-a")])]

/-- A list response wrapping the given items under `body.items`. -/
def wrapItems (items : List Json) : Json :=
  .obj [("body", .obj [("items", .arr items)])]

/-- An upstream client all of whose calls succeed with the given response
value (and whose log call returns the given log text). -/
def stubUpstream (j : Json) (log : String) : Upstream where
  getAPIResources := .ok j
  listNamespacedPod := fun _ => .ok j
  listNamespacedService := fun _ _ => .ok j
  listNamespacedDeployment := fun _ _ => .ok j
  readNamespacedPod := fun _ _ => .ok j
  readNamespacedService := fun _ _ => .ok j
  readNamespacedDeployment := fun _ _ => .ok j
  readNamespacedPodLog := fun _ _ _ _ => .ok log
  listNamespace := .ok j
  listNode := fun _ => .ok j
  readNode := fun _ => .ok j
  listNamespacedConfigMap := fun _ _ => .ok j
  readNamespacedConfigMap := fun _ _ => .ok j

/-- A concrete upstream exception text that is strictly longer than the fixed
connectivity message (any such text works), so that it cannot occur inside
that message as a substring. -/
def longErr : String := connectionErrorMessage kcEx ++ " upstream exception"

theorem length_pos_append_left (a b : String) (h : 0 < a.length) :
    0 < (a ++ b).length := by
  rw [String.length_append]
  omega

theorem envelopeOk_textResult (s : String) : envelopeOk (textResult s) := by
  intro h
  simp [textResult] at h

theorem envelopeOk_errorResult (s : String) (h : 0 < s.length) :
    envelopeOk (errorResult s) := by
  intro _
  refine ⟨rfl, ?_⟩
  intro c hc
  simp only [errorResult, List.mem_singleton] at hc
  subst hc
  exact ⟨rfl, h⟩

theorem connectionErrorMessage_len_pos (kc : KubeConfig) :
    0 < (connectionErrorMessage kc).length := by
  have h : 0 < ("Unable to connect to the Kubernetes cluster at " : String).length := by
    decide
  unfold connectionErrorMessage
  simp only [String.length_append]
  omega

theorem includesText_append (pre sub : String) : includesText (pre ++ sub) sub :=
  ⟨pre, "", by simp⟩

theorem requireName_falsy (args : ToolArgs) (msg : String)
    (body : String → ToolResult × List UCall) (h : nameFalsy args = true) :
    requireName args msg body = (errorResult msg, []) := by
  unfold requireName
  unfold nameFalsy at h
  cases hn : args.name with
  | none => rfl
  | some s =>
    rw [hn] at h
    simp only [decide_eq_true_eq] at h
    simp [h]

theorem requireName_some (args : ToolArgs) (msg : String)
    (body : String → ToolResult × List UCall) (n : String)
    (hn : args.name = some n) (hne : n ≠ "") :
    requireName args msg body = body n := by
  unfold requireName
  rw [hn]
  simp [hne]

theorem getClusterInfo_envelopeOk (kc : KubeConfig) (u : Upstream) :
    envelopeOk (getClusterInfo kc u).1 := by
  unfold getClusterInfo
  cases u.getAPIResources with
  | ok v => exact envelopeOk_textResult _
  | error e => exact envelopeOk_errorResult _ (length_pos_append_left _ _ (by decide))

theorem listPods_envelopeOk (kc : KubeConfig) (u : Upstream) (args : ToolArgs) :
    envelopeOk (listPods kc u args).1 := by
  unfold listPods
  dsimp only
  cases u.listNamespacedPod (nsOrDefault args.«namespace») with
  | error e => exact envelopeOk_errorResult _ (connectionErrorMessage_len_pos kc)
  | ok r =>
    dsimp only
    cases podItems r with
    | error e => exact envelopeOk_errorResult _ (connectionErrorMessage_len_pos kc)
    | ok items =>
      dsimp only
      cases mapOrThrow projectPod items with
      | ok pods => exact envelopeOk_textResult _
      | error e => exact envelopeOk_errorResult _ (connectionErrorMessage_len_pos kc)

theorem listServices_envelopeOk (u : Upstream) (args : ToolArgs) :
    envelopeOk (listServices u args).1 := by
  unfold listServices
  dsimp only
  cases u.listNamespacedService (nsOrDefault args.«namespace») args.labelSelector with
  | error e => exact envelopeOk_errorResult _ (length_pos_append_left _ _ (by decide))
  | ok r =>
    dsimp only
    cases jsItems r with
    | error e => exact envelopeOk_errorResult _ (length_pos_append_left _ _ (by decide))
    | ok items =>
      dsimp only
      cases mapOrThrow projectService items with
      | ok projected => exact envelopeOk_textResult _
      | error e => exact envelopeOk_errorResult _ (length_pos_append_left _ _ (by decide))

theorem listDeployments_envelopeOk (u : Upstream) (args : ToolArgs) :
    envelopeOk (listDeployments u args).1 := by
  unfold listDeployments
  dsimp only
  cases u.listNamespacedDeployment (nsOrDefault args.«namespace») args.labelSelector with
  | error e => exact envelopeOk_errorResult _ (length_pos_append_left _ _ (by decide))
  | ok r =>
    dsimp only
    cases jsItems r with
    | error e => exact envelopeOk_errorResult _ (length_pos_append_left _ _ (by decide))
    | ok items =>
      dsimp only
      cases mapOrThrow projectDeployment items with
      | ok projected => exact envelopeOk_textResult _
      | error e => exact envelopeOk_errorResult _ (length_pos_append_left _ _ (by decide))

theorem describePod_envelopeOk (u : Upstream) (args : ToolArgs) :
    envelopeOk (describePod u args).1 := by
  unfold describePod requireName
  cases args.name with
  | none => exact envelopeOk_errorResult _ (by decide)
  | some n =>
    by_cases hn : n = ""
    · simp only [hn, if_pos]
      exact envelopeOk_errorResult _ (by decide)
    · simp only [if_neg hn]
      cases u.readNamespacedPod n (nsOrDefault args.«namespace») with
      | ok r => exact envelopeOk_textResult _
      | error e => exact envelopeOk_errorResult _ (length_pos_append_left _ _ (by decide))

theorem describeService_envelopeOk (u : Upstream) (args : ToolArgs) :
    envelopeOk (describeService u args).1 := by
  unfold describeService requireName
  cases args.name with
  | none => exact envelopeOk_errorResult _ (by decide)
  | some n =>
    by_cases hn : n = ""
    · simp only [hn, if_pos]
      exact envelopeOk_errorResult _ (by decide)
    · simp only [if_neg hn]
      cases u.readNamespacedService n (nsOrDefault args.«namespace») with
      | ok r => exact envelopeOk_textResult _
      | error e => exact envelopeOk_errorResult _ (length_pos_append_left _ _ (by decide))

theorem describeDeployment_envelopeOk (u : Upstream) (args : ToolArgs) :
    envelopeOk (describeDeployment u args).1 := by
  unfold describeDeployment requireName
  cases args.name with
  | none => exact envelopeOk_errorResult _ (by decide)
  | some n =>
    by_cases hn : n = ""
    · simp only [hn, if_pos]
      exact envelopeOk_errorResult _ (by decide)
    · simp only [if_neg hn]
      cases u.readNamespacedDeployment n (nsOrDefault args.«namespace») with
      | ok r => exact envelopeOk_textResult _
      | error e => exact envelopeOk_errorResult _ (length_pos_append_left _ _ (by decide))

theorem getPodLogs_envelopeOk (u : Upstream) (args : ToolArgs) :
    envelopeOk (getPodLogs u args).1 := by
  unfold getPodLogs requireName
  cases args.name with
  | none => exact envelopeOk_errorResult _ (by decide)
  | some n =>
    by_cases hn : n = ""
    · simp only [hn, if_pos]
      exact envelopeOk_errorResult _ (by decide)
    · simp only [if_neg hn]
      cases u.readNamespacedPodLog n (nsOrDefault args.«namespace») args.container args.tailLines with
      | ok r => exact envelopeOk_textResult _
      | error e => exact envelopeOk_errorResult _ (length_pos_append_left _ _ (by decide))

theorem listNamespaces_envelopeOk (u : Upstream) :
    envelopeOk (listNamespaces u).1 := by
  unfold listNamespaces
  cases u.listNamespace with
  | error e => exact envelopeOk_errorResult _ (length_pos_append_left _ _ (by decide))
  | ok resp =>
    simp only
    split
    · exact envelopeOk_errorResult _ (by decide)
    · split
      · exact envelopeOk_textResult _
      · split
        · exact envelopeOk_textResult _
        · exact envelopeOk_errorResult _ (length_pos_append_left _ _ (by decide))
      · exact envelopeOk_errorResult _ (length_pos_append_left _ _ (by decide))

theorem listNodes_envelopeOk (u : Upstream) (args : ToolArgs) :
    envelopeOk (listNodes u args).1 := by
  unfold listNodes
  dsimp only
  cases u.listNode args.labelSelector with
  | error e => exact envelopeOk_errorResult _ (length_pos_append_left _ _ (by decide))
  | ok r =>
    dsimp only
    cases jsItems r with
    | error e => exact envelopeOk_errorResult _ (length_pos_append_left _ _ (by decide))
    | ok items =>
      dsimp only
      cases mapOrThrow projectNode items with
      | ok nodes => exact envelopeOk_textResult _
      | error e => exact envelopeOk_errorResult _ (length_pos_append_left _ _ (by decide))

theorem describeNode_envelopeOk (u : Upstream) (args : ToolArgs) :
    envelopeOk (describeNode u args).1 := by
  unfold describeNode requireName
  cases args.name with
  | none => exact envelopeOk_errorResult _ (by decide)
  | some n =>
    by_cases hn : n = ""
    · simp only [hn, if_pos]
      exact envelopeOk_errorResult _ (by decide)
    · simp only [if_neg hn]
      cases u.readNode n with
      | ok r => exact envelopeOk_textResult _
      | error e => exact envelopeOk_errorResult _ (length_pos_append_left _ _ (by decide))

theorem listConfigMaps_envelopeOk (u : Upstream) (args : ToolArgs) :
    envelopeOk (listConfigMaps u args).1 := by
  unfold listConfigMaps
  dsimp only
  cases u.listNamespacedConfigMap (nsOrDefault args.«namespace») args.labelSelector with
  | error e => exact envelopeOk_errorResult _ (length_pos_append_left _ _ (by decide))
  | ok r =>
    dsimp only
    cases jsItems r with
    | error e => exact envelopeOk_errorResult _ (length_pos_append_left _ _ (by decide))
    | ok items =>
      dsimp only
      cases mapOrThrow projectConfigMap items with
      | ok projected => exact envelopeOk_textResult _
      | error e => exact envelopeOk_errorResult _ (length_pos_append_left _ _ (by decide))

theorem describeConfigMap_envelopeOk (u : Upstream) (args : ToolArgs) :
    envelopeOk (describeConfigMap u args).1 := by
  unfold describeConfigMap requireName
  cases args.name with
  | none => exact envelopeOk_errorResult _ (by decide)
  | some n =>
    by_cases hn : n = ""
    · simp only [hn, if_pos]
      exact envelopeOk_errorResult _ (by decide)
    · simp only [if_neg hn]
      cases u.readNamespacedConfigMap n (nsOrDefault args.«namespace») with
      | ok r => exact envelopeOk_textResult _
      | error e => exact envelopeOk_errorResult _ (length_pos_append_left _ _ (by decide))

theorem handleCallTool_envelopeOk (kc : KubeConfig) (u : Upstream)
    (toolName : String) (args : ToolArgs) :
    envelopeOk (handleCallTool kc u toolName args).1 := by
  unfold handleCallTool
  by_cases h1 : toolName = "get_cluster_info"
  · rw [if_pos h1]; exact getClusterInfo_envelopeOk kc u
  rw [if_neg h1]
  by_cases h2 : toolName = "list_pods"
  · rw [if_pos h2]; exact listPods_envelopeOk kc u args
  rw [if_neg h2]
  by_cases h3 : toolName = "list_services"
  · rw [if_pos h3]; exact listServices_envelopeOk u args
  rw [if_neg h3]
  by_cases h4 : toolName = "list_deployments"
  · rw [if_pos h4]; exact listDeployments_envelopeOk u args
  rw [if_neg h4]
  by_cases h5 : toolName = "describe_pod"
  · rw [if_pos h5]; exact describePod_envelopeOk u args
  rw [if_neg h5]
  by_cases h6 : toolName = "describe_service"
  · rw [if_pos h6]; exact describeService_envelopeOk u args
  rw [if_neg h6]
  by_cases h7 : toolName = "describe_deployment"
  · rw [if_pos h7]; exact describeDeployment_envelopeOk u args
  rw [if_neg h7]
  by_cases h8 : toolName = "get_pod_logs"
  · rw [if_pos h8]; exact getPodLogs_envelopeOk u args
  rw [if_neg h8]
  by_cases h9 : toolName = "list_namespaces"
  · rw [if_pos h9]; exact listNamespaces_envelopeOk u
  rw [if_neg h9]
  by_cases h10 : toolName = "list_nodes"
  · rw [if_pos h10]; exact listNodes_envelopeOk u args
  rw [if_neg h10]
  by_cases h11 : toolName = "describe_node"
  · rw [if_pos h11]; exact describeNode_envelopeOk u args
  rw [if_neg h11]
  by_cases h12 : toolName = "list_configmaps"
  · rw [if_pos h12]; exact listConfigMaps_envelopeOk u args
  rw [if_neg h12]
  by_cases h13 : toolName = "describe_configmap"
  · rw [if_pos h13]; exact describeConfigMap_envelopeOk u args
  rw [if_neg h13]
  exact envelopeOk_errorResult _ (length_pos_append_left _ _
    (length_pos_append_left _ _ (by decide)))

theorem handleCallTool_get_cluster_info (kc : KubeConfig) (u : Upstream) (args : ToolArgs) :
    handleCallTool kc u "get_cluster_info" args = getClusterInfo kc u := rfl

theorem handleCallTool_list_pods (kc : KubeConfig) (u : Upstream) (args : ToolArgs) :
    handleCallTool kc u "list_pods" args = listPods kc u args := rfl

theorem handleCallTool_list_services (kc : KubeConfig) (u : Upstream) (args : ToolArgs) :
    handleCallTool kc u "list_services" args = listServices u args := rfl

theorem handleCallTool_list_deployments (kc : KubeConfig) (u : Upstream) (args : ToolArgs) :
    handleCallTool kc u "list_deployments" args = listDeployments u args := rfl

theorem handleCallTool_describe_pod (kc : KubeConfig) (u : Upstream) (args : ToolArgs) :
    handleCallTool kc u "describe_pod" args = describePod u args := rfl

theorem handleCallTool_describe_service (kc : KubeConfig) (u : Upstream) (args : ToolArgs) :
    handleCallTool kc u "describe_service" args = describeService u args := rfl

theorem handleCallTool_describe_deployment (kc : KubeConfig) (u : Upstream) (args : ToolArgs) :
    handleCallTool kc u "describe_deployment" args = describeDeployment u args := rfl

theorem handleCallTool_get_pod_logs (kc : KubeConfig) (u : Upstream) (args : ToolArgs) :
    handleCallTool kc u "get_pod_logs" args = getPodLogs u args := rfl

theorem handleCallTool_list_namespaces (kc : KubeConfig) (u : Upstream) (args : ToolArgs) :
    handleCallTool kc u "list_namespaces" args = listNamespaces u := rfl

theorem handleCallTool_list_nodes (kc : KubeConfig) (u : Upstream) (args : ToolArgs) :
    handleCallTool kc u "list_nodes" args = listNodes u args := rfl

theorem handleCallTool_describe_node (kc : KubeConfig) (u : Upstream) (args : ToolArgs) :
    handleCallTool kc u "describe_node" args = describeNode u args := rfl

theorem handleCallTool_list_configmaps (kc : KubeConfig) (u : Upstream) (args : ToolArgs) :
    handleCallTool kc u "list_configmaps" args = listConfigMaps u args := rfl

theorem handleCallTool_describe_configmap (kc : KubeConfig) (u : Upstream) (args : ToolArgs) :
    handleCallTool kc u "describe_configmap" args = describeConfigMap u args := rfl

theorem getClusterInfo_calls (kc : KubeConfig) (u : Upstream) :
    (getClusterInfo kc u).2 = [.getAPIResources] := by
  unfold getClusterInfo
  cases u.getAPIResources <;> rfl

theorem listPods_calls (kc : KubeConfig) (u : Upstream) (args : ToolArgs) :
    (listPods kc u args).2 = [.listNamespacedPod (nsOrDefault args.«namespace»)] := by
  unfold listPods
  dsimp only
  cases u.listNamespacedPod (nsOrDefault args.«namespace») <;> rfl

theorem listServices_calls (u : Upstream) (args : ToolArgs) :
    (listServices u args).2 =
      [.listNamespacedService (nsOrDefault args.«namespace») args.labelSelector] := by
  unfold listServices
  dsimp only
  cases u.listNamespacedService (nsOrDefault args.«namespace») args.labelSelector <;> rfl

theorem listDeployments_calls (u : Upstream) (args : ToolArgs) :
    (listDeployments u args).2 =
      [.listNamespacedDeployment (nsOrDefault args.«namespace») args.labelSelector] := by
  unfold listDeployments
  dsimp only
  cases u.listNamespacedDeployment (nsOrDefault args.«namespace») args.labelSelector <;> rfl

theorem listNamespaces_calls (u : Upstream) :
    (listNamespaces u).2 = [.listNamespace] := by
  unfold listNamespaces
  cases u.listNamespace <;> rfl

theorem listNodes_calls (u : Upstream) (args : ToolArgs) :
    (listNodes u args).2 = [.listNode args.labelSelector] := by
  unfold listNodes
  dsimp only
  cases u.listNode args.labelSelector <;> rfl

theorem listConfigMaps_calls (u : Upstream) (args : ToolArgs) :
    (listConfigMaps u args).2 =
      [.listNamespacedConfigMap (nsOrDefault args.«namespace») args.labelSelector] := by
  unfold listConfigMaps
  dsimp only
  cases u.listNamespacedConfigMap (nsOrDefault args.«namespace») args.labelSelector <;> rfl

theorem describePod_calls (u : Upstream) (args : ToolArgs) (n : String)
    (hn : args.name = some n) (hne : n ≠ "") :
    (describePod u args).2 = [.readNamespacedPod n (nsOrDefault args.«namespace»)] := by
  unfold describePod
  rw [requireName_some _ _ _ n hn hne]
  dsimp only
  cases u.readNamespacedPod n (nsOrDefault args.«namespace») <;> rfl

theorem describeService_calls (u : Upstream) (args : ToolArgs) (n : String)
    (hn : args.name = some n) (hne : n ≠ "") :
    (describeService u args).2 = [.readNamespacedService n (nsOrDefault args.«namespace»)] := by
  unfold describeService
  rw [requireName_some _ _ _ n hn hne]
  dsimp only
  cases u.readNamespacedService n (nsOrDefault args.«namespace») <;> rfl

theorem describeDeployment_calls (u : Upstream) (args : ToolArgs) (n : String)
    (hn : args.name = some n) (hne : n ≠ "") :
    (describeDeployment u args).2 =
      [.readNamespacedDeployment n (nsOrDefault args.«namespace»)] := by
  unfold describeDeployment
  rw [requireName_some _ _ _ n hn hne]
  dsimp only
  cases u.readNamespacedDeployment n (nsOrDefault args.«namespace») <;> rfl

theorem describeConfigMap_calls (u : Upstream) (args : ToolArgs) (n : String)
    (hn : args.name = some n) (hne : n ≠ "") :
    (describeConfigMap u args).2 =
      [.readNamespacedConfigMap n (nsOrDefault args.«namespace»)] := by
  unfold describeConfigMap
  rw [requireName_some _ _ _ n hn hne]
  dsimp only
  cases u.readNamespacedConfigMap n (nsOrDefault args.«namespace») <;> rfl

theorem getPodLogs_calls (u : Upstream) (args : ToolArgs) (n : String)
    (hn : args.name = some n) (hne : n ≠ "") :
    (getPodLogs u args).2 =
      [.readNamespacedPodLog n (nsOrDefault args.«namespace») args.container args.tailLines] := by
  unfold getPodLogs
  rw [requireName_some _ _ _ n hn hne]
  dsimp only
  cases u.readNamespacedPodLog n (nsOrDefault args.«namespace») args.container args.tailLines <;> rfl

theorem requireName_calls_len (args : ToolArgs) (msg : String)
    (body : String → ToolResult × List UCall)
    (h : ∀ n, (body n).2.length ≤ 1) :
    (requireName args msg body).2.length ≤ 1 := by
  unfold requireName
  cases args.name with
  | none => simp
  | some n =>
    by_cases hn : n = ""
    · simp [hn]
    · simp only [if_neg hn]
      exact h n

theorem describePod_calls_len (u : Upstream) (args : ToolArgs) :
    (describePod u args).2.length ≤ 1 := by
  unfold describePod
  apply requireName_calls_len
  intro n
  dsimp only
  cases u.readNamespacedPod n (nsOrDefault args.«namespace») <;> simp

theorem describeService_calls_len (u : Upstream) (args : ToolArgs) :
    (describeService u args).2.length ≤ 1 := by
  unfold describeService
  apply requireName_calls_len
  intro n
  dsimp only
  cases u.readNamespacedService n (nsOrDefault args.«namespace») <;> simp

theorem describeDeployment_calls_len (u : Upstream) (args : ToolArgs) :
    (describeDeployment u args).2.length ≤ 1 := by
  unfold describeDeployment
  apply requireName_calls_len
  intro n
  dsimp only
  cases u.readNamespacedDeployment n (nsOrDefault args.«namespace») <;> simp

theorem describeNode_calls_len (u : Upstream) (args : ToolArgs) :
    (describeNode u args).2.length ≤ 1 := by
  unfold describeNode
  apply requireName_calls_len
  intro n
  dsimp only
  cases u.readNode n <;> simp

theorem describeConfigMap_calls_len (u : Upstream) (args : ToolArgs) :
    (describeConfigMap u args).2.length ≤ 1 := by
  unfold describeConfigMap
  apply requireName_calls_len
  intro n
  dsimp only
  cases u.readNamespacedConfigMap n (nsOrDefault args.«namespace») <;> simp

theorem getPodLogs_calls_len (u : Upstream) (args : ToolArgs) :
    (getPodLogs u args).2.length ≤ 1 := by
  unfold getPodLogs
  apply requireName_calls_len
  intro n
  dsimp only
  cases u.readNamespacedPodLog n (nsOrDefault args.«namespace») args.container args.tailLines <;> simp

theorem handleCallTool_calls_len (kc : KubeConfig) (u : Upstream)
    (toolName : String) (args : ToolArgs) :
    (handleCallTool kc u toolName args).2.length ≤ 1 := by
  unfold handleCallTool
  by_cases h1 : toolName = "get_cluster_info"
  · rw [if_pos h1, getClusterInfo_calls]; simp
  rw [if_neg h1]
  by_cases h2 : toolName = "list_pods"
  · rw [if_pos h2, listPods_calls]; simp
  rw [if_neg h2]
  by_cases h3 : toolName = "list_services"
  · rw [if_pos h3, listServices_calls]; simp
  rw [if_neg h3]
  by_cases h4 : toolName = "list_deployments"
  · rw [if_pos h4, listDeployments_calls]; simp
  rw [if_neg h4]
  by_cases h5 : toolName = "describe_pod"
  · rw [if_pos h5]; exact describePod_calls_len u args
  rw [if_neg h5]
  by_cases h6 : toolName = "describe_service"
  · rw [if_pos h6]; exact describeService_calls_len u args
  rw [if_neg h6]
  by_cases h7 : toolName = "describe_deployment"
  · rw [if_pos h7]; exact describeDeployment_calls_len u args
  rw [if_neg h7]
  by_cases h8 : toolName = "get_pod_logs"
  · rw [if_pos h8]; exact getPodLogs_calls_len u args
  rw [if_neg h8]
  by_cases h9 : toolName = "list_namespaces"
  · rw [if_pos h9, listNamespaces_calls]; simp
  rw [if_neg h9]
  by_cases h10 : toolName = "list_nodes"
  · rw [if_pos h10, listNodes_calls]; simp
  rw [if_neg h10]
  by_cases h11 : toolName = "describe_node"
  · rw [if_pos h11]; exact describeNode_calls_len u args
  rw [if_neg h11]
  by_cases h12 : toolName = "list_configmaps"
  · rw [if_pos h12, listConfigMaps_calls]; simp
  rw [if_neg h12]
  by_cases h13 : toolName = "describe_configmap"
  · rw [if_pos h13]; exact describeConfigMap_calls_len u args
  rw [if_neg h13]
  simp

theorem describePod_fail_isError (e : String) (args : ToolArgs) :
    ((describePod (failUpstream e) args).1).isError = true := by
  unfold describePod requireName
  cases args.name with
  | none => rfl
  | some n =>
    by_cases hn : n = ""
    · simp [hn, errorResult]
    · simp only [if_neg hn]
      rfl

theorem describeService_fail_isError (e : String) (args : ToolArgs) :
    ((describeService (failUpstream e) args).1).isError = true := by
  unfold describeService requireName
  cases args.name with
  | none => rfl
  | some n =>
    by_cases hn : n = ""
    · simp [hn, errorResult]
    · simp only [if_neg hn]
      rfl

theorem describeDeployment_fail_isError (e : String) (args : ToolArgs) :
    ((describeDeployment (failUpstream e) args).1).isError = true := by
  unfold describeDeployment requireName
  cases args.name with
  | none => rfl
  | some n =>
    by_cases hn : n = ""
    · simp [hn, errorResult]
    · simp only [if_neg hn]
      rfl

theorem describeNode_fail_isError (e : String) (args : ToolArgs) :
    ((describeNode (failUpstream e) args).1).isError = true := by
  unfold describeNode requireName
  cases args.name with
  | none => rfl
  | some n =>
    by_cases hn : n = ""
    · simp [hn, errorResult]
    · simp only [if_neg hn]
      rfl

theorem describeConfigMap_fail_isError (e : String) (args : ToolArgs) :
    ((describeConfigMap (failUpstream e) args).1).isError = true := by
  unfold describeConfigMap requireName
  cases args.name with
  | none => rfl
  | some n =>
    by_cases hn : n = ""
    · simp [hn, errorResult]
    · simp only [if_neg hn]
      rfl

theorem getPodLogs_fail_isError (e : String) (args : ToolArgs) :
    ((getPodLogs (failUpstream e) args).1).isError = true := by
  unfold getPodLogs requireName
  cases args.name with
  | none => rfl
  | some n =>
    by_cases hn : n = ""
    · simp [hn, errorResult]
    · simp only [if_neg hn]
      rfl

theorem handleCallTool_fail_isError (kc : KubeConfig) (e : String)
    (toolName : String) (args : ToolArgs) :
    ((handleCallTool kc (failUpstream e) toolName args).1).isError = true := by
  unfold handleCallTool
  by_cases h1 : toolName = "get_cluster_info"
  · rw [if_pos h1]; rfl
  rw [if_neg h1]
  by_cases h2 : toolName = "list_pods"
  · rw [if_pos h2]; rfl
  rw [if_neg h2]
  by_cases h3 : toolName = "list_services"
  · rw [if_pos h3]; rfl
  rw [if_neg h3]
  by_cases h4 : toolName = "list_deployments"
  · rw [if_pos h4]; rfl
  rw [if_neg h4]
  by_cases h5 : toolName = "describe_pod"
  · rw [if_pos h5]; exact describePod_fail_isError e args
  rw [if_neg h5]
  by_cases h6 : toolName = "describe_service"
  · rw [if_pos h6]; exact describeService_fail_isError e args
  rw [if_neg h6]
  by_cases h7 : toolName = "describe_deployment"
  · rw [if_pos h7]; exact describeDeployment_fail_isError e args
  rw [if_neg h7]
  by_cases h8 : toolName = "get_pod_logs"
  · rw [if_pos h8]; exact getPodLogs_fail_isError e args
  rw [if_neg h8]
  by_cases h9 : toolName = "list_namespaces"
  · rw [if_pos h9]; rfl
  rw [if_neg h9]
  by_cases h10 : toolName = "list_nodes"
  · rw [if_pos h10]; rfl
  rw [if_neg h10]
  by_cases h11 : toolName = "describe_node"
  · rw [if_pos h11]; exact describeNode_fail_isError e args
  rw [if_neg h11]
  by_cases h12 : toolName = "list_configmaps"
  · rw [if_pos h12]; rfl
  rw [if_neg h12]
  by_cases h13 : toolName = "describe_configmap"
  · rw [if_pos h13]; exact describeConfigMap_fail_isError e args
  rw [if_neg h13]
  rfl

theorem handleCallTool_unknown (kc : KubeConfig) (u : Upstream)
    (toolName : String) (args : ToolArgs) (h : toolName ∉ toolNames) :
    handleCallTool kc u toolName args =
      (errorResult ("Error: " ++ "MCP error -32601: Unknown tool: " ++ toolName), []) := by
  simp only [toolNames, List.mem_cons, List.not_mem_nil, or_false, not_or] at h
  obtain ⟨h1, h2, h3, h4, h5, h6, h7, h8, h9, h10, h11, h12, h13⟩ := h
  unfold handleCallTool
  rw [if_neg h1, if_neg h2, if_neg h3, if_neg h4, if_neg h5, if_neg h6, if_neg h7,
    if_neg h8, if_neg h9, if_neg h10, if_neg h11, if_neg h12, if_neg h13]

theorem name_required_failures (kc : KubeConfig) (u : Upstream) (args : ToolArgs)
    (h : nameFalsy args = true) :
    handleCallTool kc u "describe_pod" args = (errorResult "Error: Pod name is required", []) ∧
    handleCallTool kc u "describe_service" args = (errorResult "Error: Service name is required", []) ∧
    handleCallTool kc u "describe_deployment" args = (errorResult "Error: Deployment name is required", []) ∧
    handleCallTool kc u "describe_configmap" args = (errorResult "Error: ConfigMap name is required", []) ∧
    handleCallTool kc u "describe_node" args = (errorResult "Error: Node name is required", []) ∧
    handleCallTool kc u "get_pod_logs" args = (errorResult "Error: Pod name is required", []) := by
  refine ⟨?_, ?_, ?_, ?_, ?_, ?_⟩
  · rw [handleCallTool_describe_pod]
    unfold describePod
    rw [requireName_falsy _ _ _ h]
  · rw [handleCallTool_describe_service]
    unfold describeService
    rw [requireName_falsy _ _ _ h]
  · rw [handleCallTool_describe_deployment]
    unfold describeDeployment
    rw [requireName_falsy _ _ _ h]
  · rw [handleCallTool_describe_configmap]
    unfold describeConfigMap
    rw [requireName_falsy _ _ _ h]
  · rw [handleCallTool_describe_node]
    unfold describeNode
    rw [requireName_falsy _ _ _ h]
  · rw [handleCallTool_get_pod_logs]
    unfold getPodLogs
    rw [requireName_falsy _ _ _ h]

/-- C1: for every invocation of any of the 13 operations, any failure
(unknown tool name, missing-name validation failure, or upstream call
failure) is reported as an envelope with `isError = true` carrying a single
non-empty human-readable text entry; the dispatcher is a total function, so
no exception propagates past the invocation boundary; and the server holds no
cross-invocation state: a run over a request sequence is the pointwise image
of the single-invocation handler, so an invocation issued after any failure
behaves exactly as on a fresh server, with catalog and dispatch intact. -/
theorem C1_failure_envelope_and_recovery :
    (∀ kc u toolName args, envelopeOk (handleCallTool kc u toolName args).1) ∧
    (∀ kc u toolName args, toolName ∉ toolNames →
      handleCallTool kc u toolName args =
        (errorResult ("Error: " ++ "MCP error -32601: Unknown tool: " ++ toolName), [])) ∧
    (∀ kc u args, nameFalsy args = true →
      ((handleCallTool kc u "describe_pod" args).1).isError = true ∧
      ((handleCallTool kc u "describe_service" args).1).isError = true ∧
      ((handleCallTool kc u "describe_deployment" args).1).isError = true ∧
      ((handleCallTool kc u "describe_configmap" args).1).isError = true ∧
      ((handleCallTool kc u "describe_node" args).1).isError = true ∧
      ((handleCallTool kc u "get_pod_logs" args).1).isError = true) ∧
    (∀ kc e toolName args,
      ((handleCallTool kc (failUpstream e) toolName args).1).isError = true) ∧
    (∀ kc u reqs1 reqs2,
      runServer kc u (reqs1 ++ reqs2) = runServer kc u reqs1 ++ runServer kc u reqs2) ∧
    (∀ kc u req, runServer kc u [req] = [(handleCallTool kc u req.1 req.2).1]) := by
  refine ⟨handleCallTool_envelopeOk, handleCallTool_unknown, ?_,
    handleCallTool_fail_isError, ?_, ?_⟩
  · intro kc u args h
    obtain ⟨e1, e2, e3, e4, e5, e6⟩ := name_required_failures kc u args h
    exact ⟨by rw [e1]; rfl, by rw [e2]; rfl, by rw [e3]; rfl, by rw [e4]; rfl,
      by rw [e5]; rfl, by rw [e6]; rfl⟩

  · intro kc u reqs1 reqs2
    unfold runServer
    exact List.map_append _ _ _
  · intro kc u req
    rfl

theorem C1_witness :
    envelopeOk (handleCallTool kcEx (failUpstream "connect ECONNREFUSED") "list_pods" ({} : ToolArgs)).1 ∧
    handleCallTool kcEx (failUpstream "boom") "bogus_tool" ({} : ToolArgs) =
      (errorResult ("Error: " ++ "MCP error -32601: Unknown tool: " ++ "bogus_tool"), []) ∧
    ((handleCallTool kcEx (stubUpstream podEx "") "describe_pod" ({} : ToolArgs)).1).isError = true ∧
    ((handleCallTool kcEx (failUpstream "boom") "list_nodes" ({} : ToolArgs)).1).isError = true ∧
    runServer kcEx (failUpstream "boom") ([("list_pods", ({} : ToolArgs))] ++ [("get_cluster_info", ({} : ToolArgs))]) =
      runServer kcEx (failUpstream "boom") [("list_pods", ({} : ToolArgs))] ++
        runServer kcEx (failUpstream "boom") [("get_cluster_info", ({} : ToolArgs))] :=
  ⟨C1_failure_envelope_and_recovery.1 kcEx _ _ _,
   C1_failure_envelope_and_recovery.2.1 kcEx _ _ _ (by decide),
   (C1_failure_envelope_and_recovery.2.2.1 kcEx (stubUpstream podEx "") ({} : ToolArgs) rfl).1,
   C1_failure_envelope_and_recovery.2.2.2.1 kcEx _ _ _,
   C1_failure_envelope_and_recovery.2.2.2.2.1 kcEx _ _ _⟩

/-- C3: invoking `describe_pod`, `describe_service`, `describe_deployment`,
`describe_configmap`, `describe_node` or `get_pod_logs` with an absent (or
empty) `name` argument yields a Failure envelope stating that the name is
required, and the upstream call trace is empty — no upstream call is made. -/
theorem C3_missing_name_fails_without_upstream_call (kc : KubeConfig)
    (u : Upstream) (args : ToolArgs) (h : nameFalsy args = true) :
    handleCallTool kc u "describe_pod" args = (errorResult "Error: Pod name is required", []) ∧
    handleCallTool kc u "describe_service" args = (errorResult "Error: Service name is required", []) ∧
    handleCallTool kc u "describe_deployment" args = (errorResult "Error: Deployment name is required", []) ∧
    handleCallTool kc u "describe_configmap" args = (errorResult "Error: ConfigMap name is required", []) ∧
    handleCallTool kc u "describe_node" args = (errorResult "Error: Node name is required", []) ∧
    handleCallTool kc u "get_pod_logs" args = (errorResult "Error: Pod name is required", []) :=
  name_required_failures kc u args h

theorem C3_witness :
    handleCallTool kcEx (stubUpstream podEx "") "describe_pod" ({} : ToolArgs) =
      (errorResult "Error: Pod name is required", []) ∧
    handleCallTool kcEx (stubUpstream podEx "") "get_pod_logs" { name := some "" } =
      (errorResult "Error: Pod name is required", []) :=
  ⟨(C3_missing_name_fails_without_upstream_call kcEx (stubUpstream podEx "") ({} : ToolArgs) rfl).1,
   (C3_missing_name_fails_without_upstream_call kcEx (stubUpstream podEx "")
      { name := some "" } (by decide)).2.2.2.2.2⟩

theorem stringify_arr_nil : Json.stringify (.arr []) = "[]" := by
  rw [Json.stringify]
  simp only [List.attach_nil, List.map_nil]
  rfl

theorem mapOrThrow_eq_map (f : Json → Except String Json) (g : Json → Json)
    (items : List Json) (h : ∀ p ∈ items, f p = .ok (g p)) :
    mapOrThrow f items = .ok (items.map g) := by
  induction items with
  | nil => rfl
  | cons p ps ih =>
    rw [mapOrThrow, h p (List.mem_cons_self p ps),
      ih (fun q hq => h q (List.mem_cons_of_mem p hq))]
    rfl

theorem projectPod_of_obj (p : Json) (h : p.isObj = true) :
    projectPod p = .ok (podFields p) := by
  cases p <;> simp_all [projectPod, Json.getEx, Json.isObj]

theorem podItems_of_items (response : Json) (items : List Json)
    (hitems : (response.get "body").get "items" = .arr items) :
    podItems response = .ok items := by
  cases response <;> simp_all [podItems, Json.get]

/-- C2: on an upstream `list_pods` response whose `body.items` is a
collection of N raw pod objects, the handler returns a Success (never a
Failure) whose payload is the serialization of exactly the N projected
objects, in upstream order (projection commutes with indexing); each
projected object has exactly the fields
{name, namespace, status, ip, node, creationTimestamp}, taken from
`metadata.name`, `metadata.namespace`, `status.phase`, `status.podIP`,
`spec.nodeName` and `metadata.creationTimestamp`; N = 0 yields the empty
sequence `[]` as a Success. -/
theorem C2_listPods_projection (kc : KubeConfig) (u : Upstream) (args : ToolArgs)
    (response : Json) (items : List Json)
    (hresp : u.listNamespacedPod (nsOrDefault args.«namespace») = .ok response)
    (hitems : (response.get "body").get "items" = .arr items)
    (hpods : ∀ p ∈ items, p.isObj = true) :
    handleCallTool kc u "list_pods" args =
      (textResult (Json.stringify (.arr (items.map podFields))),
       [.listNamespacedPod (nsOrDefault args.«namespace»)]) ∧
    ((handleCallTool kc u "list_pods" args).1).isError = false ∧
    (items.map podFields).length = items.length ∧
    (∀ i : Nat, (items.map podFields)[i]? = (items[i]?).map podFields) ∧
    (∀ p, (podFields p).objKeys =
      ["name", "namespace", "status", "ip", "node", "creationTimestamp"]) ∧
    (∀ p, podFields p = .obj [
      ("name", (p.get "metadata").get "name"),
      ("namespace", (p.get "metadata").get "namespace"),
      ("status", (p.get "status").get "phase"),
      ("ip", (p.get "status").get "podIP"),
      ("node", (p.get "spec").get "nodeName"),
      ("creationTimestamp", (p.get "metadata").get "creationTimestamp")]) ∧
    (∀ p, p.isObj = true → projectPod p = .ok (podFields p)) ∧
    (items = [] →
      handleCallTool kc u "list_pods" args =
        (textResult "[]", [.listNamespacedPod (nsOrDefault args.«namespace»)])) := by
  have hpi : podItems response = .ok items := podItems_of_items response items hitems
  have hmap : mapOrThrow projectPod items = .ok (items.map podFields) :=
    mapOrThrow_eq_map projectPod podFields items
      (fun p hp => projectPod_of_obj p (hpods p hp))
  have hmain : handleCallTool kc u "list_pods" args =
      (textResult (Json.stringify (.arr (items.map podFields))),
       [.listNamespacedPod (nsOrDefault args.«namespace»)]) := by
    rw [handleCallTool_list_pods]
    unfold listPods
    dsimp only
    rw [hresp]
    dsimp only
    rw [hpi]
    dsimp only
    rw [hmap]
  refine ⟨hmain, by rw [hmain]; rfl, List.length_map _ _, ?_, fun p => rfl,
    fun p => rfl, projectPod_of_obj, ?_⟩
  · intro i
    simp [List.getElem?_map]
  · intro hnil
    subst hnil
    rw [hmain, List.map_nil, stringify_arr_nil]

theorem C2_witness :
    handleCallTool kcEx (stubUpstream (wrapItems [podEx]) "") "list_pods" ({} : ToolArgs) =
      (textResult (Json.stringify (.arr ([podEx].map podFields))),
       [.listNamespacedPod "default"]) ∧
    (podFields podEx).objKeys =
      ["name", "namespace", "status", "ip", "node", "creationTimestamp"] ∧
    handleCallTool kcEx (stubUpstream (wrapItems []) "") "list_pods" ({} : ToolArgs) =
      (textResult "[]", [.listNamespacedPod "default"]) :=
  have h1 := C2_listPods_projection kcEx (stubUpstream (wrapItems [podEx]) "")
    ({} : ToolArgs) (wrapItems [podEx]) [podEx] rfl rfl
    (by intro p hp; rw [List.mem_singleton] at hp; subst hp; rfl)
  have h2 := C2_listPods_projection kcEx (stubUpstream (wrapItems []) "")
    ({} : ToolArgs) (wrapItems []) [] rfl rfl (by intro p hp; cases hp)
  ⟨h1.1, h1.2.2.2.2.1 podEx, h2.2.2.2.2.2.2.2 rfl⟩

/-- C6: when the `namespace` argument is absent, every namespaced operation
(`list_pods`, `list_services`, `list_deployments`, `list_configmaps`,
`describe_pod`, `describe_service`, `describe_deployment`,
`describe_configmap`, `get_pod_logs`) issues its upstream call with namespace
`"default"`, as witnessed by the recorded upstream call trace. -/
theorem C6_namespace_defaulting (kc : KubeConfig) (u : Upstream) (args : ToolArgs)
    (h : args.«namespace» = none) :
    (handleCallTool kc u "list_pods" args).2 = [.listNamespacedPod "default"] ∧
    (handleCallTool kc u "list_services" args).2 =
      [.listNamespacedService "default" args.labelSelector] ∧
    (handleCallTool kc u "list_deployments" args).2 =
      [.listNamespacedDeployment "default" args.labelSelector] ∧
    (handleCallTool kc u "list_configmaps" args).2 =
      [.listNamespacedConfigMap "default" args.labelSelector] ∧
    (∀ n, args.name = some n → n ≠ "" →
      (handleCallTool kc u "describe_pod" args).2 = [.readNamespacedPod n "default"] ∧
      (handleCallTool kc u "describe_service" args).2 = [.readNamespacedService n "default"] ∧
      (handleCallTool kc u "describe_deployment" args).2 = [.readNamespacedDeployment n "default"] ∧
      (handleCallTool kc u "describe_configmap" args).2 = [.readNamespacedConfigMap n "default"] ∧
      (handleCallTool kc u "get_pod_logs" args).2 =
        [.readNamespacedPodLog n "default" args.container args.tailLines]) := by
  have hd : nsOrDefault args.«namespace» = "default" := by rw [h]; rfl
  refine ⟨?_, ?_, ?_, ?_, ?_⟩
  · rw [handleCallTool_list_pods, listPods_calls, hd]
  · rw [handleCallTool_list_services, listServices_calls, hd]
  · rw [handleCallTool_list_deployments, listDeployments_calls, hd]
  · rw [handleCallTool_list_configmaps, listConfigMaps_calls, hd]
  · intro n hn hne
    refine ⟨?_, ?_, ?_, ?_, ?_⟩
    · rw [handleCallTool_describe_pod, describePod_calls u args n hn hne, hd]
    · rw [handleCallTool_describe_service, describeService_calls u args n hn hne, hd]
    · rw [handleCallTool_describe_deployment, describeDeployment_calls u args n hn hne, hd]
    · rw [handleCallTool_describe_configmap, describeConfigMap_calls u args n hn hne, hd]
    · rw [handleCallTool_get_pod_logs, getPodLogs_calls u args n hn hne, hd]

theorem C6_witness :
    (handleCallTool kcEx (stubUpstream (wrapItems []) "") "list_pods"
      { name := some "web-1" }).2 = [.listNamespacedPod "default"] ∧
    (handleCallTool kcEx (stubUpstream (wrapItems []) "") "describe_pod"
      { name := some "web-1" }).2 = [.readNamespacedPod "web-1" "default"] :=
  have h := C6_namespace_defaulting kcEx (stubUpstream (wrapItems []) "")
    { name := some "web-1" } rfl
  ⟨h.1, (h.2.2.2.2 "web-1" rfl (by decide)).1⟩

/-- C7: the `labelSelector` argument is forwarded to the upstream call for
`list_services`, `list_deployments` and `list_configmaps`, but the
`list_pods` handler ignores it entirely — its upstream call carries only the
namespace, and the whole invocation result is identical whether or not a
selector is supplied, contradicting the tool catalog's own description of
the parameter as a pod filter. -/
theorem C7_labelSelector_ignored_by_listPods (kc : KubeConfig) (u : Upstream) (s : String) :
    handleCallTool kc u "list_pods" { labelSelector := some s } =
      handleCallTool kc u "list_pods" ({} : ToolArgs) ∧
    (handleCallTool kc u "list_pods" { labelSelector := some s }).2 =
      [.listNamespacedPod "default"] ∧
    (handleCallTool kc u "list_services" { labelSelector := some s }).2 =
      [.listNamespacedService "default" (some s)] ∧
    (handleCallTool kc u "list_deployments" { labelSelector := some s }).2 =
      [.listNamespacedDeployment "default" (some s)] ∧
    (handleCallTool kc u "list_configmaps" { labelSelector := some s }).2 =
      [.listNamespacedConfigMap "default" (some s)] := by
  refine ⟨rfl, ?_, ?_, ?_, ?_⟩
  · rw [handleCallTool_list_pods, listPods_calls]; rfl
  · rw [handleCallTool_list_services, listServices_calls]; rfl
  · rw [handleCallTool_list_deployments, listDeployments_calls]; rfl
  · rw [handleCallTool_list_configmaps, listConfigMaps_calls]; rfl

/-- C9: on a successful `get_pod_logs` invocation the returned content text
is the raw upstream log string itself, with no projection or modification —
for any argument combination, in particular when `container` and `tailLines`
are both omitted. -/
theorem C9_pod_logs_passthrough (kc : KubeConfig) (u : Upstream) (args : ToolArgs)
    (n log : String) (hn : args.name = some n) (hne : n ≠ "")
    (hlog : u.readNamespacedPodLog n (nsOrDefault args.«namespace»)
      args.container args.tailLines = .ok log) :
    handleCallTool kc u "get_pod_logs" args =
      ({ content := [{ type := "text", text := log }], isError := false },
       [.readNamespacedPodLog n (nsOrDefault args.«namespace»)
          args.container args.tailLines]) := by
  rw [handleCallTool_get_pod_logs]
  unfold getPodLogs
  rw [requireName_some _ _ _ n hn hne]
  dsimp only
  rw [hlog]
  rfl

theorem C9_witness :
    handleCallTool kcEx (stubUpstream Json.null "line-1\nline-2\n") "get_pod_logs"
      { name := some "web-1" } =
      ({ content := [{ type := "text", text := "line-1\nline-2\n" }], isError := false },
       [.readNamespacedPodLog "web-1" "default" none none]) :=
  C9_pod_logs_passthrough kcEx (stubUpstream Json.null "line-1\nline-2\n")
    { name := some "web-1" } "web-1" "line-1\nline-2\n" rfl (by decide) rfl

/-- C10: when the `list_namespaces` upstream response is truthy but exposes
neither a `body.items` field nor a top-level `items` field, the handler
returns a Success (isError false) whose text is `Raw response: ` followed by
the serialized raw response, instead of a projected namespace sequence. -/
theorem C10_namespaces_raw_fallback (kc : KubeConfig) (u : Upstream) (args : ToolArgs)
    (resp : Json) (hresp : u.listNamespace = .ok resp)
    (ht : resp.truthy = true)
    (hbi : (resp.get "body").get "items" = .undefined)
    (hti : resp.get "items" = .undefined) :
    handleCallTool kc u "list_namespaces" args =
      (textResult ("Raw response: " ++ resp.stringify), [.listNamespace]) ∧
    ((handleCallTool kc u "list_namespaces" args).1).isError = false := by
  have hmain : handleCallTool kc u "list_namespaces" args =
      (textResult ("Raw response: " ++ resp.stringify), [.listNamespace]) := by
    rw [handleCallTool_list_namespaces]
    unfold listNamespaces
    rw [hresp]
    dsimp only
    rw [ht, hbi, hti]
    simp [Json.truthy]
  exact ⟨hmain, by rw [hmain]; rfl⟩

theorem C10_witness :
    handleCallTool kcEx (stubUpstream (Json.obj [("kind", .str "NamespaceList")]) "")
      "list_namespaces" ({} : ToolArgs) =
      (textResult ("Raw response: " ++ (Json.obj [("kind", .str "NamespaceList")]).stringify),
       [.listNamespace]) :=
  (C10_namespaces_raw_fallback kcEx
    (stubUpstream (Json.obj [("kind", .str "NamespaceList")]) "") ({} : ToolArgs)
    (Json.obj [("kind", .str "NamespaceList")]) rfl rfl rfl rfl).1

/-- C8 (amended): when the upstream call fails with exception text `e`, every
operation except `list_pods` returns a Failure whose message is a fixed
per-operation prefix followed by `e` — so it includes the upstream-provided
exception text — while `list_pods` replaces any upstream failure by the fixed
connectivity-guidance message, independent of `e`; in all cases at most one
upstream call is recorded per invocation, with no retry. -/
theorem C8_upstream_error_surfacing (kc : KubeConfig) (e : String)
    (args : ToolArgs) (n : String) (hn : args.name = some n) (hne : n ≠ "") :
    (handleCallTool kc (failUpstream e) "list_pods" args).1 =
      errorResult (connectionErrorMessage kc) ∧
    (handleCallTool kc (failUpstream e) "get_cluster_info" args).1 =
      errorResult ("Error getting cluster info: " ++ e) ∧
    (handleCallTool kc (failUpstream e) "list_services" args).1 =
      errorResult ("Error listing services: " ++ e) ∧
    (handleCallTool kc (failUpstream e) "list_deployments" args).1 =
      errorResult ("Error listing deployments: " ++ e) ∧
    (handleCallTool kc (failUpstream e) "describe_pod" args).1 =
      errorResult ("Error describing pod: " ++ e) ∧
    (handleCallTool kc (failUpstream e) "describe_service" args).1 =
      errorResult ("Error describing service: " ++ e) ∧
    (handleCallTool kc (failUpstream e) "describe_deployment" args).1 =
      errorResult ("Error describing deployment: " ++ e) ∧
    (handleCallTool kc (failUpstream e) "get_pod_logs" args).1 =
      errorResult ("Error getting pod logs: " ++ e) ∧
    (handleCallTool kc (failUpstream e) "list_namespaces" args).1 =
      errorResult ("Error listing namespaces: " ++ e) ∧
    (handleCallTool kc (failUpstream e) "list_nodes" args).1 =
      errorResult ("Error listing nodes: " ++ e) ∧
    (handleCallTool kc (failUpstream e) "describe_node" args).1 =
      errorResult ("Error describing node: " ++ e) ∧
    (handleCallTool kc (failUpstream e) "list_configmaps" args).1 =
      errorResult ("Error listing configmaps: " ++ e) ∧
    (handleCallTool kc (failUpstream e) "describe_configmap" args).1 =
      errorResult ("Error describing configmap: " ++ e) ∧
    (∀ p : String, includesText (p ++ e) e) ∧
    (∀ u toolName args2, ((handleCallTool kc u toolName args2).2).length ≤ 1) := by
  refine ⟨rfl, rfl, rfl, rfl, ?_, ?_, ?_, ?_, rfl, rfl, ?_, rfl, ?_,
    fun p => includesText_append p e,
    fun u toolName args2 => handleCallTool_calls_len kc u toolName args2⟩
  · rw [handleCallTool_describe_pod]
    unfold describePod
    rw [requireName_some _ _ _ n hn hne]
    rfl
  · rw [handleCallTool_describe_service]
    unfold describeService
    rw [requireName_some _ _ _ n hn hne]
    rfl
  · rw [handleCallTool_describe_deployment]
    unfold describeDeployment
    rw [requireName_some _ _ _ n hn hne]
    rfl
  · rw [handleCallTool_get_pod_logs]
    unfold getPodLogs
    rw [requireName_some _ _ _ n hn hne]
    rfl
  · rw [handleCallTool_describe_node]
    unfold describeNode
    rw [requireName_some _ _ _ n hn hne]
    rfl
  · rw [handleCallTool_describe_configmap]
    unfold describeConfigMap
    rw [requireName_some _ _ _ n hn hne]
    rfl

theorem C8_witness :
    (handleCallTool kcEx (failUpstream "pods is forbidden") "describe_pod"
      { name := some "web-1" }).1 =
      errorResult ("Error describing pod: " ++ "pods is forbidden") ∧
    (handleCallTool kcEx (failUpstream "pods is forbidden") "list_pods"
      { name := some "web-1" }).1 = errorResult (connectionErrorMessage kcEx) :=
  have h := C8_upstream_error_surfacing kcEx "pods is forbidden"
    { name := some "web-1" } "web-1" rfl (by decide)
  ⟨h.2.2.2.2.1, h.1⟩

/-- C8 counterexample: a `list_pods` invocation whose upstream call fails
with an upstream-provided exception text yields the fixed connectivity
message, which does not contain that exception text — refuting the claim that
every operation's failure message includes the upstream-provided text. -/
theorem C8_counterexample :
    (handleCallTool kcEx (failUpstream longErr) "list_pods" ({} : ToolArgs)).1 =
      errorResult (connectionErrorMessage kcEx) ∧
    ¬ includesText (connectionErrorMessage kcEx) longErr := by
  refine ⟨rfl, ?_⟩
  rintro ⟨pre, post, hEq⟩
  have hlen := congrArg String.length hEq
  rw [longErr] at hlen
  rw [String.length_append, String.length_append, String.length_append] at hlen
  have hpos : 0 < (" upstream exception" : String).length := by decide
  omega
